import Mathlib

/-!
Verification of the connectivity-and-trust core of the teleport repository:
the authorizing tunnel wrapper (`TunnelWithRoles` in
`lib/reversetunnelclient`), the dual-path auth-client dialer
(`lib/auth/authclient/authclient.go`), and the effective certificate-expiry
computation (`GetDisconnectExpiredCertFromIdentity`, validated against its
test table in `lib/srv/monitor_test.go`).

The Go code is shallowly embedded: the collaborator interfaces
(`Tunnel`, `ClusterGetter`, `AccessChecker`, the network dial and ping
operations) become function-valued fields of an environment record, errors
become an inductive `Err`/`AErr` kind carrying the message, and the
side effects the spec talks about (client creation and closing, resolver
creation, resource lookups, access checks) are tracked in an explicit event
log returned next to the result.
-/

namespace Teleport

/-! ## Error model for the reversetunnelclient module

`trace` errors are classified by kind; `trace.Wrap` with no format
arguments preserves both the kind and the message, so it is embedded as the
identity.  `trace.IsNotFound` / `trace.IsAccessDenied` test the kind. -/

inductive Err where
  | notFound (msg : String)
  | accessDenied (msg : String)
  | other (msg : String)
  deriving DecidableEq, Repr

def isNotFound : Err → Bool
  | .notFound _ => true
  | _ => false

def isAccessDenied : Err → Bool
  | .accessDenied _ => true
  | _ => false

/-- Modelled from the spec: `utils.OpaqueAccessDenied` is not under `src/`
(only its call site in `TunnelWithRoles.GetSite` is).  The spec says an
access-denial is "returned as an opaque access-denied error", with the
underlying decision detail wrapped/obscured before returning, so the
embedding maps any error to an access-denied error with a fixed message
that discards the underlying detail. -/
def obscuredAccessDenied (_e : Err) : Err := .accessDenied "access denied"

/-! ## Data model of the authorizing tunnel -/

/-- A remote site as reported by the raw tunnel.  Only the name is consulted
by `TunnelWithRoles`; `payload` keeps distinct sites with equal names
distinguishable, mirroring the fact that the site value is opaque and passed
through unmodified. -/
structure RemoteSite where
  name : String
  payload : Nat := 0
  deriving DecidableEq, Repr

/-- A `types.RemoteCluster` trust-relationship resource, opaque to the
wrapper except for being handed to the access checker. -/
structure RemoteCluster where
  name : String
  deriving DecidableEq, Repr

/-- Calls the wrapper makes on its collaborators, recorded in an event log:
a `GetRemoteCluster` resource lookup by name, and a
`CheckAccessToRemoteCluster` access check performed for the site with the
given name. -/
inductive TCall where
  | getRemoteCluster (name : String)
  | checkAccess (name : String)
  deriving DecidableEq, Repr

def TCall.site : TCall → String
  | .getRemoteCluster n => n
  | .checkAccess n => n

/-- The `TunnelWithRoles` value together with the behaviour of its
collaborators: the wrapped `Tunnel` (its `GetSites` and `GetSite` results),
the configured local cluster name, the `ClusterGetter` resource lookup and
the `AccessChecker` decision (`none` embeds a nil error, i.e. access
allowed). -/
structure TunnelWithRoles where
  tunnel_getSites : Except Err (List RemoteSite)
  tunnel_getSite : String → Except Err RemoteSite
  localCluster : String
  access_getRemoteCluster : String → Except Err RemoteCluster
  checkAccessToRemoteCluster : RemoteCluster → Option Err

/-- The per-site loop body of `TunnelWithRoles.GetSites`: local-named sites
are appended without any collaborator call; otherwise the resource is looked
up (NotFound skips the site, any other lookup error aborts), then the access
check runs (access-denied skips the site, any other error aborts).  The
second component is the log of collaborator calls made, in order. -/
def getSitesLoop (t : TunnelWithRoles) :
    List RemoteSite → Except Err (List RemoteSite) × List TCall
  | [] => (.ok [], [])
  | c :: rest =>
    if t.localCluster = c.name then
      let r := getSitesLoop t rest
      (Except.map (fun out => c :: out) r.fst, r.snd)
    else
      match t.access_getRemoteCluster c.name with
      | .error e =>
        if isNotFound e then
          let r := getSitesLoop t rest
          (r.fst, .getRemoteCluster c.name :: r.snd)
        else
          (.error e, [.getRemoteCluster c.name])
      | .ok rc =>
        match t.checkAccessToRemoteCluster rc with
        | some e =>
          if isAccessDenied e then
            let r := getSitesLoop t rest
            (r.fst, .getRemoteCluster c.name :: .checkAccess c.name :: r.snd)
          else
            (.error e, [.getRemoteCluster c.name, .checkAccess c.name])
        | none =>
          let r := getSitesLoop t rest
          (Except.map (fun out => c :: out) r.fst,
            .getRemoteCluster c.name :: .checkAccess c.name :: r.snd)

/-- `TunnelWithRoles.GetSites`: fetch the underlying list (propagating its
error) and filter it through the per-site loop. -/
def TunnelWithRoles.GetSites (t : TunnelWithRoles) :
    Except Err (List RemoteSite) × List TCall :=
  match t.tunnel_getSites with
  | .error e => (.error e, [])
  | .ok clusters => getSitesLoop t clusters

/-- `TunnelWithRoles.GetSite`: fetch the site from the underlying tunnel
(propagating its error); if the returned site's name equals the local
cluster name, return it with no collaborator call; otherwise look up the
resource by the requested name (any lookup error is returned wrapped,
i.e. unchanged) and run the access check, obscuring a denial. -/
def TunnelWithRoles.GetSite (t : TunnelWithRoles) (clusterName : String) :
    Except Err RemoteSite × List TCall :=
  match t.tunnel_getSite clusterName with
  | .error e => (.error e, [])
  | .ok cluster =>
    if t.localCluster = cluster.name then
      (.ok cluster, [])
    else
      match t.access_getRemoteCluster clusterName with
      | .error e => (.error e, [.getRemoteCluster clusterName])
      | .ok rc =>
        match t.checkAccessToRemoteCluster rc with
        | some e =>
          (.error (obscuredAccessDenied e),
            [.getRemoteCluster clusterName, .checkAccess clusterName])
        | none =>
          (.ok cluster, [.getRemoteCluster clusterName, .checkAccess clusterName])

/-- The per-site abort condition of the `GetSites` loop: `some e` when
processing this site makes the whole call fail with `e` (a non-NotFound
lookup error, or a non-access-denied check error), `none` when the site is
included or silently skipped. -/
def siteAbortErr (t : TunnelWithRoles) (c : RemoteSite) : Option Err :=
  if t.localCluster = c.name then none
  else
    match t.access_getRemoteCluster c.name with
    | .error e => if isNotFound e then none else some e
    | .ok rc =>
      match t.checkAccessToRemoteCluster rc with
      | some e => if isAccessDenied e then none else some e
      | none => none

/-- Which sites survive the filtering when no site aborts the call: local
sites always, other sites exactly when the resource lookup succeeds and the
access check allows. -/
def siteKeep (t : TunnelWithRoles) (c : RemoteSite) : Bool :=
  if t.localCluster = c.name then true
  else
    match t.access_getRemoteCluster c.name with
    | .error _ => false
    | .ok rc => (t.checkAccessToRemoteCluster rc).isNone

/-! ## Embedding of the authclient dialer (`lib/auth/authclient/authclient.go`)

Errors carry their message structure: `trace.Wrap(err, fmt, ...)` prepends a
message while keeping the cause, plain `trace.Wrap(err)` is the identity,
and `trace.NewAggregate` keeps the whole list of causes. -/

inductive AErr where
  | base (msg : String)
  | wrapped (msg : String) (cause : AErr)
  | aggregate (direct tunnel : AErr)
  deriving DecidableEq, Repr

/-- A client handle; `auth.NewClient` results are identified by the handle
the environment hands out, so that closing can be tracked per client. -/
abbrev Client := Nat

/-- Observable connection-resource effects of the dialer: a client
constructed by `auth.NewClient`, a client closed, and the tunnel path's
construction of a resolver for the given proxy address. -/
inductive CEvent where
  | created (c : Client)
  | closed (c : Client)
  | resolverCreated (proxyAddr : String)
  deriving DecidableEq, Repr

/-- `authclient.Config`: the address list and whether SSH credentials are
present (`cfg.SSH != nil`); the TLS credentials and the remaining knobs are
passed through opaquely and do not influence the control flow embedded
here. -/
structure Config where
  authServers : List String
  ssh : Option Unit

/-- Outcomes of the external operations the dialer performs: direct client
construction, the per-client `Ping` liveness probe (`none` embeds a nil
error), `CachingResolver`, `NewTunnelAuthDialer`, and tunnel client
construction. -/
structure DialEnv where
  newDirectClient : Except AErr Client
  ping : Client → Option AErr
  cachingResolver : Except AErr Unit
  newTunnelAuthDialer : Except AErr Unit
  newTunnelClient : Except AErr Client

/-- `connectViaAuthDirect`: build a client over TLS; on construction failure
return the wrapped error; on ping failure close the client and return the
error; otherwise return the live client.  The event list records creations
and closes in order. -/
def connectViaAuthDirect (env : DialEnv) : Except AErr Client × List CEvent :=
  match env.newDirectClient with
  | .error e => (.error e, [])
  | .ok c =>
    match env.ping c with
    | some e => (.error e, [.created c, .closed c])
    | none => (.ok c, [.created c])

/-- `connectViaProxyTunnel`: reads `cfg.AuthServers[0]` to build the web
client resolver — on an empty address list this indexing is out of bounds
(a Go panic), embedded as `none`; otherwise the resolver is constructed,
cached, a tunnel dialer and client are built, and the client must pass the
ping probe (closing it on probe failure). -/
def connectViaProxyTunnel (cfg : Config) (env : DialEnv) :
    Option (Except AErr Client × List CEvent) :=
  match cfg.authServers[0]? with
  | none => none
  | some proxyAddr =>
    some (match env.cachingResolver with
    | .error e => (.error e, [.resolverCreated proxyAddr])
    | .ok _ =>
      match env.newTunnelAuthDialer with
      | .error e => (.error e, [.resolverCreated proxyAddr])
      | .ok _ =>
        match env.newTunnelClient with
        | .error e => (.error e, [.resolverCreated proxyAddr])
        | .ok c =>
          match env.ping c with
          | some e =>
            (.error e, [.resolverCreated proxyAddr, .created c, .closed c])
          | none => (.ok c, [.resolverCreated proxyAddr, .created c]))

/-- The message `Connect` wraps around a direct-dial failure. -/
def directFailMsg : String := "failed direct dial to auth server"

/-- The message `Connect` wraps around a tunnel-dial failure. -/
def tunnelFailMsg : String := "failed dial to auth server through reverse tunnel"

/-- `authclient.Connect`: try the direct path; on success return its client
untouched.  Otherwise, with no SSH credentials return the wrapped direct
error alone; with SSH credentials run the tunnel path and either return its
client or aggregate both wrapped failures.  `none` propagates the tunnel
path's out-of-bounds indexing. -/
def Connect (cfg : Config) (env : DialEnv) :
    Option (Except AErr Client × List CEvent) :=
  match connectViaAuthDirect env with
  | (.ok c, evs) => some (.ok c, evs)
  | (.error e, evs) =>
    let directErr := AErr.wrapped directFailMsg e
    match cfg.ssh with
    | none => some (.error directErr, evs)
    | some _ =>
      match connectViaProxyTunnel cfg env with
      | none => none
      | some (.ok c, evs2) => some (.ok c, evs ++ evs2)
      | some (.error e2, evs2) =>
        some (.error (.aggregate directErr (AErr.wrapped tunnelFailMsg e2)),
          evs ++ evs2)

/-! ## Effective certificate expiry (`GetDisconnectExpiredCertFromIdentity`)

Time is embedded as `Nat`, with `0` as Go's zero `time.Time`. -/

/-- The fields of `tlsca.Identity` consulted by the computation: the
certificate expiry, the previous-identity expiry, and the `MFAVerified`
device id (the identity is MFA-verified iff the string is nonempty). -/
structure Identity where
  expires : Nat
  previousIdentityExpires : Nat
  mfaVerified : String
  deriving DecidableEq, Repr

/-- Modelled from the spec: `srv.GetDisconnectExpiredCertFromIdentity` is
not under `src/` (only its test `TestGetDisconnectExpiredCertFromIdentity`
is).  Per the spec, when the policy's disconnect-expired-cert behaviour —
the auth preference value as adjusted by the access checker — is off, the
effective expiry is the zero time; otherwise the previous-identity expiry
overrides the certificate expiry when it is set and the identity is
MFA-verified. -/
def GetDisconnectExpiredCertFromIdentity
    (adjustDisconnectExpiredCert : Bool → Bool)
    (authPrefDisconnectExpiredCert : Bool) (identity : Identity) : Nat :=
  if adjustDisconnectExpiredCert authPrefDisconnectExpiredCert then
    if identity.previousIdentityExpires ≠ 0 ∧ identity.mfaVerified ≠ "" then
      identity.previousIdentityExpires
    else
      identity.expires
  else 0

/-- One row of the table in `TestGetDisconnectExpiredCertFromIdentity`. -/
structure ExpiryTestRow where
  expires : Nat
  previousIdentityExpires : Nat
  mfaVerified : Bool
  disconnectExpiredCert : Bool
  expected : Nat
  deriving Repr

/-- The fake clock's current instant in the test; any nonzero value, since
`clockwork.NewFakeClock` starts at a nonzero time. -/
def testNow : Nat := 1000000

/-- `now.Add(time.Hour)` in the test. -/
def testInAnHour : Nat := testNow + 3600

/-- The three rows of `TestGetDisconnectExpiredCertFromIdentity`:
"mfa overrides expires when set", "expires returned when mfa unset", and
"unset when disconnectExpiredCert is false". -/
def expiryTestRows : List ExpiryTestRow :=
  [ { expires := testNow, previousIdentityExpires := testInAnHour,
      mfaVerified := true, disconnectExpiredCert := true,
      expected := testInAnHour },
    { expires := testNow, previousIdentityExpires := 0,
      mfaVerified := false, disconnectExpiredCert := true,
      expected := testNow },
    { expires := testNow, previousIdentityExpires := testInAnHour,
      mfaVerified := true, disconnectExpiredCert := false,
      expected := 0 } ]

/-- How the test builds the identity from a row: `MFAVerified` is the
device id `"1234"` when the row sets the flag and empty otherwise. -/
def rowIdentity (row : ExpiryTestRow) : Identity :=
  { expires := row.expires,
    previousIdentityExpires := row.previousIdentityExpires,
    mfaVerified := if row.mfaVerified then "1234" else "" }

/-- The test's `mockChecker.AdjustDisconnectExpiredCert` returns its
argument unchanged. -/
def mockAdjustDisconnectExpiredCert (disconnect : Bool) : Bool := disconnect

/-- A row passes when the computed effective expiry equals the row's
expected value, as the test requires. -/
def expiryRowPasses (row : ExpiryTestRow) : Bool :=
  GetDisconnectExpiredCertFromIdentity mockAdjustDisconnectExpiredCert
    row.disconnectExpiredCert (rowIdentity row) = row.expected

/-! ## Lemmas about the `GetSites` loop -/

/-- When the loop succeeds, the output is exactly the filtered input and no
site along the way aborted. -/
theorem getSitesLoop_ok_strong (t : TunnelWithRoles) (l : List RemoteSite) :
    ∀ out, (getSitesLoop t l).fst = .ok out →
      out = l.filter (siteKeep t) ∧ ∀ c ∈ l, siteAbortErr t c = none := by
  induction l with
  | nil =>
    intro out h
    simp only [getSitesLoop] at h
    cases h
    simp
  | cons c rest ih =>
    intro out h
    by_cases hloc : t.localCluster = c.name
    · cases hr : (getSitesLoop t rest).fst with
      | error e =>
        simp only [getSitesLoop, if_pos hloc, hr, Except.map] at h
        simp at h
      | ok restOut =>
        simp only [getSitesLoop, if_pos hloc, hr, Except.map,
          Except.ok.injEq] at h
        obtain ⟨h1, h2⟩ := ih restOut hr
        subst h
        refine ⟨by simp [List.filter_cons, siteKeep, hloc, h1], ?_⟩
        intro d hd
        rcases List.mem_cons.mp hd with hd | hd
        · subst hd; simp [siteAbortErr, hloc]
        · exact h2 d hd
    · cases hlk : t.access_getRemoteCluster c.name with
      | error e =>
        by_cases hnf : isNotFound e = true
        · simp only [getSitesLoop, if_neg hloc, hlk, hnf, if_true] at h
          obtain ⟨h1, h2⟩ := ih out h
          refine ⟨?_, ?_⟩
          · rw [List.filter_cons, if_neg (by simp [siteKeep, hloc, hlk])]
            exact h1
          · intro d hd
            rcases List.mem_cons.mp hd with hd | hd
            · subst hd; simp [siteAbortErr, hloc, hlk, hnf]
            · exact h2 d hd
        · simp only [getSitesLoop, if_neg hloc, hlk, hnf, if_false] at h
          simp at h
      | ok rc =>
        cases hck : t.checkAccessToRemoteCluster rc with
        | some e =>
          by_cases had : isAccessDenied e = true
          · simp only [getSitesLoop, if_neg hloc, hlk, hck, had, if_true] at h
            obtain ⟨h1, h2⟩ := ih out h
            refine ⟨?_, ?_⟩
            · rw [List.filter_cons, if_neg (by simp [siteKeep, hloc, hlk, hck])]
              exact h1
            · intro d hd
              rcases List.mem_cons.mp hd with hd | hd
              · subst hd; simp [siteAbortErr, hloc, hlk, hck, had]
              · exact h2 d hd
          · simp only [getSitesLoop, if_neg hloc, hlk, hck, had, if_false] at h
            simp at h
        | none =>
          cases hr : (getSitesLoop t rest).fst with
          | error e =>
            simp only [getSitesLoop, if_neg hloc, hlk, hck, hr,
              Except.map] at h
            simp at h
          | ok restOut =>
            simp only [getSitesLoop, if_neg hloc, hlk, hck, hr, Except.map,
              Except.ok.injEq] at h
            obtain ⟨h1, h2⟩ := ih restOut hr
            subst h
            refine ⟨?_, ?_⟩
            · rw [List.filter_cons, if_pos (by simp [siteKeep, hloc, hlk, hck])]
              rw [h1]
            · intro d hd
              rcases List.mem_cons.mp hd with hd | hd
              · subst hd; simp [siteAbortErr, hloc, hlk, hck]
              · exact h2 d hd

/-- When no site aborts, the loop succeeds with the filtered input. -/
theorem getSitesLoop_ok_of_noAbort (t : TunnelWithRoles) (l : List RemoteSite)
    (h : ∀ c ∈ l, siteAbortErr t c = none) :
    (getSitesLoop t l).fst = .ok (l.filter (siteKeep t)) := by
  induction l with
  | nil => simp [getSitesLoop]
  | cons c rest ih =>
    have hrest : (getSitesLoop t rest).fst = .ok (rest.filter (siteKeep t)) :=
      ih (fun d hd => h d (List.mem_cons_of_mem c hd))
    have hc := h c (List.mem_cons_self c rest)
    by_cases hloc : t.localCluster = c.name
    · simp [getSitesLoop, if_pos hloc, hrest, Except.map, List.filter_cons,
        siteKeep, hloc]
    · simp only [siteAbortErr, if_neg hloc] at hc
      cases hlk : t.access_getRemoteCluster c.name with
      | error e =>
        simp only [hlk] at hc
        by_cases hnf : isNotFound e = true
        · simp only [getSitesLoop, if_neg hloc, hlk, hnf, if_true]
          rw [List.filter_cons, if_neg (by simp [siteKeep, hloc, hlk])]
          exact hrest
        · simp [hnf] at hc
      | ok rc =>
        simp only [hlk] at hc
        cases hck : t.checkAccessToRemoteCluster rc with
        | some e =>
          simp only [hck] at hc
          by_cases had : isAccessDenied e = true
          · simp only [getSitesLoop, if_neg hloc, hlk, hck, had, if_true]
            rw [List.filter_cons, if_neg (by simp [siteKeep, hloc, hlk, hck])]
            exact hrest
          · simp [had] at hc
        | none =>
          simp only [getSitesLoop, if_neg hloc, hlk, hck, hrest, Except.map]
          rw [List.filter_cons, if_pos (by simp [siteKeep, hloc, hlk, hck])]

/-- Every collaborator call the loop logs is for a non-local site name. -/
theorem getSitesLoop_log_nonlocal (t : TunnelWithRoles) (l : List RemoteSite) :
    ∀ call ∈ (getSitesLoop t l).snd, TCall.site call ≠ t.localCluster := by
  induction l with
  | nil => simp [getSitesLoop]
  | cons c rest ih =>
    intro call hcall
    by_cases hloc : t.localCluster = c.name
    · simp only [getSitesLoop, if_pos hloc] at hcall
      exact ih call hcall
    · have hcn : c.name ≠ t.localCluster := fun h => hloc h.symm
      cases hlk : t.access_getRemoteCluster c.name with
      | error e =>
        by_cases hnf : isNotFound e = true
        · simp only [getSitesLoop, if_neg hloc, hlk, hnf, if_true,
            List.mem_cons] at hcall
          rcases hcall with h | h
          · subst h; simpa [TCall.site] using hcn
          · exact ih call h
        · simp [getSitesLoop, if_neg hloc, hlk, hnf] at hcall
          subst hcall; simpa [TCall.site] using hcn
      | ok rc =>
        cases hck : t.checkAccessToRemoteCluster rc with
        | some e =>
          by_cases had : isAccessDenied e = true
          · simp only [getSitesLoop, if_neg hloc, hlk, hck, had, if_true,
              List.mem_cons] at hcall
            rcases hcall with h | h | h
            · subst h; simpa [TCall.site] using hcn
            · subst h; simpa [TCall.site] using hcn
            · exact ih call h
          · simp [getSitesLoop, if_neg hloc, hlk, hck, had] at hcall
            rcases hcall with h | h
            · subst h; simpa [TCall.site] using hcn
            · subst h; simpa [TCall.site] using hcn
        | none =>
          simp only [getSitesLoop, if_neg hloc, hlk, hck,
            List.mem_cons] at hcall
          rcases hcall with h | h | h
          · subst h; simpa [TCall.site] using hcn
          · subst h; simpa [TCall.site] using hcn
          · exact ih call h

/-! ## Concrete collaborators used as counterexamples and witnesses -/

/-- A wrapper whose resource lookups always report NotFound while the access
checker allows everything; the tunnel reports a single non-local site. -/
def cexTunnelC1 : TunnelWithRoles :=
  { tunnel_getSites := .ok []
    tunnel_getSite := fun _ => .ok { name := "remote1" }
    localCluster := "local"
    access_getRemoteCluster := fun _ =>
      .error (.notFound "remote cluster not found")
    checkAccessToRemoteCluster := fun _ => none }

/-- A wrapper whose access checker denies everything with an access-denied
error. -/
def witTunnelC1 : TunnelWithRoles :=
  { tunnel_getSites := .ok []
    tunnel_getSite := fun _ => .ok { name := "remote1" }
    localCluster := "local"
    access_getRemoteCluster := fun name => .ok { name := name }
    checkAccessToRemoteCluster := fun _ =>
      some (.accessDenied "user alice lacks access to cluster remote1") }

/-- A wrapper whose resource lookups fail with a non-NotFound infrastructure
error while the access checker never errors. -/
def cexTunnelC2 : TunnelWithRoles :=
  { tunnel_getSites := .ok [{ name := "remote1" }]
    tunnel_getSite := fun _ => .error (.notFound "no such site")
    localCluster := "local"
    access_getRemoteCluster := fun _ => .error (.other "backend failure")
    checkAccessToRemoteCluster := fun _ => none }

/-- A wrapper over four sites exercising every filtering outcome: the local
site, a denied site, a dangling site with no resource, and an allowed
site. -/
def witTunnelFull : TunnelWithRoles :=
  { tunnel_getSites := .ok [{ name := "local" }, { name := "denied" },
      { name := "missing" }, { name := "allowed" }]
    tunnel_getSite := fun n => .ok { name := n }
    localCluster := "local"
    access_getRemoteCluster := fun name =>
      if name = "missing" then .error (.notFound "no remote cluster resource")
      else .ok { name := name }
    checkAccessToRemoteCluster := fun rc =>
      if rc.name = "denied" then some (.accessDenied "denied by role") else none }

/-! ## Claims about the authorizing tunnel -/

/-- C1 counterexample: with a non-local site whose RemoteCluster lookup
reports NotFound, `GetSite` returns the NotFound error itself, not an
access-denied error, so the claim that both the NotFound case and the
denied case yield an opaque access-denied error fails at this input. -/
theorem getSite_notFound_cex :
    (TunnelWithRoles.GetSite cexTunnelC1 "remote1").fst
        = .error (.notFound "remote cluster not found") ∧
      isAccessDenied (.notFound "remote cluster not found") = false := by
  exact ⟨rfl, rfl⟩

/-- C1 (amended): for a cluster whose site is not the local cluster,
`GetSite` returns an opaque access-denied error — a fixed access-denied
value hiding the checker's own error detail — when the access check denies;
when the RemoteCluster resource lookup fails (NotFound included), the
lookup's error is returned unchanged, so the two cases are
distinguishable. -/
theorem getSite_nonlocal_errors (t : TunnelWithRoles) (n : String)
    (s : RemoteSite) (h1 : t.tunnel_getSite n = .ok s)
    (h2 : s.name ≠ t.localCluster) :
    (∀ e, t.access_getRemoteCluster n = .error e →
        (TunnelWithRoles.GetSite t n).fst = .error e) ∧
      (∀ rc e, t.access_getRemoteCluster n = .ok rc →
        t.checkAccessToRemoteCluster rc = some e →
        (TunnelWithRoles.GetSite t n).fst
          = .error (Err.accessDenied "access denied")) := by
  have hne : ¬ t.localCluster = s.name := fun h => h2 h.symm
  constructor
  · intro e he
    simp only [TunnelWithRoles.GetSite, h1, if_neg hne, he]
  · intro rc e hrc hck
    simp only [TunnelWithRoles.GetSite, h1, if_neg hne, hrc, hck,
      obscuredAccessDenied]

/-- C1 witness: in the denying wrapper, `GetSite` on a non-local name
returns exactly the opaque access-denied error. -/
theorem getSite_nonlocal_errors_witness :
    (TunnelWithRoles.GetSite witTunnelC1 "remote1").fst
      = .error (Err.accessDenied "access denied") := by
  exact (getSite_nonlocal_errors witTunnelC1 "remote1" { name := "remote1" }
      rfl (by decide)).2 { name := "remote1" }
    (.accessDenied "user alice lacks access to cluster remote1") rfl rfl

/-- C2 counterexample: the tunnel enumeration succeeds and the access
checker never fails (it allows every resource), yet `GetSites` returns an
error, because one site's RemoteCluster lookup failed with a non-NotFound
error; this refutes the claimed "error if and only if the tunnel
enumeration fails or the access-decision call fails". -/
theorem getSites_error_iff_cex :
    (TunnelWithRoles.GetSites cexTunnelC2).fst = .error (.other "backend failure") ∧
      cexTunnelC2.tunnel_getSites = .ok [{ name := "remote1" }] ∧
      ∀ rc, cexTunnelC2.checkAccessToRemoteCluster rc = none := by
  exact ⟨rfl, rfl, fun _ => rfl⟩

/-- C2 (amended): `GetSites` propagates a tunnel enumeration error; given a
successful enumeration it returns an error iff some listed site aborts —
its resource lookup fails with a non-NotFound error or its access check
fails with a non-access-denied error — and when no site aborts it returns
exactly the filtered list, silently skipping every non-local site whose
lookup reported NotFound or whose check denied. -/
theorem getSites_error_characterization (t : TunnelWithRoles) :
    (∀ e, t.tunnel_getSites = .error e →
        (TunnelWithRoles.GetSites t).fst = .error e) ∧
      ∀ clusters, t.tunnel_getSites = .ok clusters →
        (((∃ e, (TunnelWithRoles.GetSites t).fst = .error e) ↔
            ∃ c ∈ clusters, siteAbortErr t c ≠ none) ∧
          ((∀ c ∈ clusters, siteAbortErr t c = none) →
            (TunnelWithRoles.GetSites t).fst
              = .ok (clusters.filter (siteKeep t)))) := by
  constructor
  · intro e he
    simp only [TunnelWithRoles.GetSites, he]
  · intro clusters hok
    have hG : (TunnelWithRoles.GetSites t).fst = (getSitesLoop t clusters).fst := by
      simp only [TunnelWithRoles.GetSites, hok]
    constructor
    · constructor
      · rintro ⟨e, he⟩
        by_contra hno
        push_neg at hno
        have := getSitesLoop_ok_of_noAbort t clusters hno
        rw [hG, this] at he
        exact Except.noConfusion he
      · rintro ⟨c, hc, hab⟩
        cases hres : (TunnelWithRoles.GetSites t).fst with
        | ok out =>
          rw [hG] at hres
          exact absurd ((getSitesLoop_ok_strong t clusters out hres).2 c hc) hab
        | error e => exact ⟨e, rfl⟩
    · intro hno
      rw [hG]
      exact getSitesLoop_ok_of_noAbort t clusters hno

/-- C2 witness: on the four-site wrapper no site aborts, so the dangling
site and the denied site are skipped silently and the local and allowed
sites are returned. -/
theorem getSites_error_characterization_witness :
    (TunnelWithRoles.GetSites witTunnelFull).fst
      = .ok [{ name := "local" }, { name := "allowed" }] := by
  have h := ((getSites_error_characterization witTunnelFull).2
    [{ name := "local" }, { name := "denied" }, { name := "missing" },
      { name := "allowed" }] rfl).2 (by decide)
  exact h.trans (by rfl)

/-- C3: a site whose name equals the configured local cluster name is
always included in the `GetSites` result and always returned by `GetSite`,
and no RemoteCluster lookup or access check is ever performed for the local
cluster name — for every behaviour of the resource store and the access
checker, since both are arbitrary fields of `t`. -/
theorem local_cluster_never_filtered (t : TunnelWithRoles)
    (clusters out : List RemoteSite) (s s2 : RemoteSite) (n : String)
    (h1 : t.tunnel_getSites = .ok clusters) (h2 : s ∈ clusters)
    (h3 : s.name = t.localCluster)
    (h4 : (TunnelWithRoles.GetSites t).fst = .ok out)
    (h5 : t.tunnel_getSite n = .ok s2) (h6 : s2.name = t.localCluster) :
    s ∈ out ∧ TunnelWithRoles.GetSite t n = (.ok s2, []) ∧
      ∀ call ∈ (TunnelWithRoles.GetSites t).snd,
        TCall.site call ≠ t.localCluster := by
  have hG : TunnelWithRoles.GetSites t = getSitesLoop t clusters := by
    simp only [TunnelWithRoles.GetSites, h1]
  refine ⟨?_, ?_, ?_⟩
  · rw [hG] at h4
    obtain ⟨hout, _⟩ := getSitesLoop_ok_strong t clusters out h4
    subst hout
    exact List.mem_filter.mpr ⟨h2, by simp [siteKeep, h3.symm]⟩
  · simp only [TunnelWithRoles.GetSite, h5, if_pos h6.symm]
  · rw [hG]
    exact getSitesLoop_log_nonlocal t clusters

/-- C3 witness: in the four-site wrapper the local site is listed by
`GetSites`, returned by `GetSite`, and no collaborator call is made for the
local name. -/
theorem local_cluster_never_filtered_witness :
    ({ name := "local" } : RemoteSite) ∈
        [({ name := "local" } : RemoteSite), { name := "allowed" }] ∧
      TunnelWithRoles.GetSite witTunnelFull "local"
        = (.ok { name := "local" }, []) := by
  have h := local_cluster_never_filtered witTunnelFull
    [{ name := "local" }, { name := "denied" }, { name := "missing" },
      { name := "allowed" }]
    [{ name := "local" }, { name := "allowed" }]
    { name := "local" } { name := "local" } "local"
    rfl (by decide) rfl (by rfl) rfl rfl
  exact ⟨h.1, h.2.1⟩

/-- C7: a successful `GetSites` result is exactly the underlying list with
the filtering rules applied, hence a sublist of the underlying list — same
relative order, no reordering, no additions. -/
theorem getSites_sublist (t : TunnelWithRoles)
    (clusters out : List RemoteSite)
    (h1 : t.tunnel_getSites = .ok clusters)
    (h2 : (TunnelWithRoles.GetSites t).fst = .ok out) :
    out = clusters.filter (siteKeep t) ∧ List.Sublist out clusters := by
  rw [show TunnelWithRoles.GetSites t = getSitesLoop t clusters by
    simp only [TunnelWithRoles.GetSites, h1]] at h2
  obtain ⟨hout, _⟩ := getSitesLoop_ok_strong t clusters out h2
  subst hout
  exact ⟨rfl, List.filter_sublist clusters⟩

/-- C7 witness: the four-site wrapper's result is the filtered underlying
list and a sublist of it. -/
theorem getSites_sublist_witness :
    List.Sublist [({ name := "local" } : RemoteSite), { name := "allowed" }]
      [({ name := "local" } : RemoteSite), { name := "denied" },
        { name := "missing" }, { name := "allowed" }] := by
  have h := getSites_sublist witTunnelFull
    [{ name := "local" }, { name := "denied" }, { name := "missing" },
      { name := "allowed" }]
    [{ name := "local" }, { name := "allowed" }] rfl (by rfl)
  exact h.2

/-- A configuration with one proxy address and SSH credentials present. -/
def witCfgProxy : Config :=
  { authServers := ["proxy.example.com:3080"], ssh := some () }

/-- A configuration without SSH credentials. -/
def witCfgNoSSH : Config :=
  { authServers := ["auth.example.com:3025"], ssh := none }

/-- A configuration with SSH credentials but an empty address list. -/
def witCfgEmpty : Config := { authServers := [], ssh := some () }

/-- An environment where the direct dial is refused and the tunnel client
construction fails. -/
def witEnvBothFail : DialEnv :=
  { newDirectClient := .error (.base "connection refused")
    ping := fun _ => none
    cachingResolver := .ok ()
    newTunnelAuthDialer := .ok ()
    newTunnelClient := .error (.base "tunnel handshake failed") }

/-- An environment where the direct client is built but fails its probe,
and the tunnel client works. -/
def witEnvPingFailThenTunnel : DialEnv :=
  { newDirectClient := .ok 1
    ping := fun c => if c = 1 then some (.base "direct ping failed") else none
    cachingResolver := .ok ()
    newTunnelAuthDialer := .ok ()
    newTunnelClient := .ok 2 }

/-- An environment where the direct path works outright; the tunnel-path
resolver would fail if it were ever constructed. -/
def witEnvDirectOk : DialEnv :=
  { newDirectClient := .ok 7
    ping := fun _ => none
    cachingResolver := .error (.base "resolver unreachable")
    newTunnelAuthDialer := .ok ()
    newTunnelClient := .error (.base "unused") }

/-! ## Claims about the authclient dialer -/

/-- The direct path never records a resolver-creation event. -/
theorem connectViaAuthDirect_no_resolver (env : DialEnv) (a : String) :
    CEvent.resolverCreated a ∉ (connectViaAuthDirect env).snd := by
  cases hd : env.newDirectClient with
  | error e => simp [connectViaAuthDirect, hd]
  | ok c =>
    cases hp : env.ping c with
    | some e => simp [connectViaAuthDirect, hd, hp]
    | none => simp [connectViaAuthDirect, hd, hp]

/-- C4: with SSH credentials present, when the direct attempt fails with
`e1` and the tunnel attempt fails with `e2`, `Connect` returns an aggregate
error that contains both wrapped causes as separate components — neither
failure is collapsed into the other. -/
theorem connect_both_fail_aggregate (cfg : Config) (env : DialEnv)
    (e1 e2 : AErr) (evs1 evs2 : List CEvent)
    (hssh : cfg.ssh = some ())
    (h1 : connectViaAuthDirect env = (.error e1, evs1))
    (h2 : connectViaProxyTunnel cfg env = some (.error e2, evs2)) :
    Connect cfg env = some (.error (.aggregate (.wrapped directFailMsg e1)
      (.wrapped tunnelFailMsg e2)), evs1 ++ evs2) := by
  simp only [Connect, h1, hssh, h2]

/-- C4 witness: both paths fail concretely and the aggregate carries both
causes. -/
theorem connect_both_fail_aggregate_witness :
    Connect witCfgProxy witEnvBothFail
      = some (.error (.aggregate
          (.wrapped directFailMsg (.base "connection refused"))
          (.wrapped tunnelFailMsg (.base "tunnel handshake failed"))),
        [CEvent.resolverCreated "proxy.example.com:3080"]) := by
  exact connect_both_fail_aggregate witCfgProxy witEnvBothFail
    (.base "connection refused") (.base "tunnel handshake failed")
    [] [CEvent.resolverCreated "proxy.example.com:3080"] rfl rfl rfl

/-- C5: a client returned by either path, or by `Connect`, has passed the
ping probe; and on either path, every client created during a failed
attempt is closed within that attempt's event log. -/
theorem connect_live_or_closed (cfg : Config) (env : DialEnv) :
    (∀ c evs, connectViaAuthDirect env = (.ok c, evs) → env.ping c = none) ∧
      (∀ e evs c, connectViaAuthDirect env = (.error e, evs) →
        CEvent.created c ∈ evs → CEvent.closed c ∈ evs) ∧
      (∀ c evs, connectViaProxyTunnel cfg env = some (.ok c, evs) →
        env.ping c = none) ∧
      (∀ e evs c, connectViaProxyTunnel cfg env = some (.error e, evs) →
        CEvent.created c ∈ evs → CEvent.closed c ∈ evs) ∧
      (∀ c evs, Connect cfg env = some (.ok c, evs) → env.ping c = none) := by
  have hdirectOk : ∀ c evs, connectViaAuthDirect env = (.ok c, evs) →
      env.ping c = none := by
    intro c evs h
    cases hd : env.newDirectClient with
    | error e => simp [connectViaAuthDirect, hd] at h
    | ok c0 =>
      cases hp : env.ping c0 with
      | some e => simp [connectViaAuthDirect, hd, hp] at h
      | none =>
        simp only [connectViaAuthDirect, hd, hp, Prod.mk.injEq,
          Except.ok.injEq] at h
        rw [← h.1]
        exact hp
  have hdirectErr : ∀ e evs c, connectViaAuthDirect env = (.error e, evs) →
      CEvent.created c ∈ evs → CEvent.closed c ∈ evs := by
    intro e evs c h hmem
    cases hd : env.newDirectClient with
    | error e0 =>
      simp only [connectViaAuthDirect, hd, Prod.mk.injEq] at h
      rw [← h.2] at hmem
      simp at hmem
    | ok c0 =>
      cases hp : env.ping c0 with
      | some e0 =>
        simp only [connectViaAuthDirect, hd, hp, Prod.mk.injEq] at h
        rw [← h.2] at hmem ⊢
        simp only [List.mem_cons] at hmem
        rcases hmem with hmem | hmem | hmem
        · cases hmem; simp
        · cases hmem
        · exact absurd hmem (by simp)
      | none => simp [connectViaAuthDirect, hd, hp] at h
  have htunOk : ∀ c evs, connectViaProxyTunnel cfg env = some (.ok c, evs) →
      env.ping c = none := by
    intro c evs h
    cases h0 : cfg.authServers[0]? with
    | none => simp [connectViaProxyTunnel, h0] at h
    | some a =>
      cases hcr : env.cachingResolver with
      | error e0 => simp [connectViaProxyTunnel, h0, hcr] at h
      | ok u =>
        cases hdl : env.newTunnelAuthDialer with
        | error e0 => simp [connectViaProxyTunnel, h0, hcr, hdl] at h
        | ok u2 =>
          cases hcl : env.newTunnelClient with
          | error e0 => simp [connectViaProxyTunnel, h0, hcr, hdl, hcl] at h
          | ok c0 =>
            cases hp : env.ping c0 with
            | some e0 =>
              simp [connectViaProxyTunnel, h0, hcr, hdl, hcl, hp] at h
            | none =>
              simp only [connectViaProxyTunnel, h0, hcr, hdl, hcl, hp,
                Option.some.injEq, Prod.mk.injEq, Except.ok.injEq] at h
              rw [← h.1]
              exact hp
  have htunErr : ∀ e evs c, connectViaProxyTunnel cfg env
      = some (.error e, evs) → CEvent.created c ∈ evs →
      CEvent.closed c ∈ evs := by
    intro e evs c h hmem
    cases h0 : cfg.authServers[0]? with
    | none => simp [connectViaProxyTunnel, h0] at h
    | some a =>
      cases hcr : env.cachingResolver with
      | error e0 =>
        simp only [connectViaProxyTunnel, h0, hcr, Option.some.injEq,
          Prod.mk.injEq] at h
        rw [← h.2] at hmem
        simp at hmem
      | ok u =>
        cases hdl : env.newTunnelAuthDialer with
        | error e0 =>
          simp only [connectViaProxyTunnel, h0, hcr, hdl, Option.some.injEq,
            Prod.mk.injEq] at h
          rw [← h.2] at hmem
          simp at hmem
        | ok u2 =>
          cases hcl : env.newTunnelClient with
          | error e0 =>
            simp only [connectViaProxyTunnel, h0, hcr, hdl, hcl,
              Option.some.injEq, Prod.mk.injEq] at h
            rw [← h.2] at hmem
            simp at hmem
          | ok c0 =>
            cases hp : env.ping c0 with
            | some e0 =>
              simp only [connectViaProxyTunnel, h0, hcr, hdl, hcl, hp,
                Option.some.injEq, Prod.mk.injEq] at h
              rw [← h.2] at hmem ⊢
              simp only [List.mem_cons] at hmem
              rcases hmem with hmem | hmem | hmem | hmem
              · cases hmem
              · cases hmem; simp
              · cases hmem
              · exact absurd hmem (by simp)
            | none =>
              simp [connectViaProxyTunnel, h0, hcr, hdl, hcl, hp] at h
  refine ⟨hdirectOk, hdirectErr, htunOk, htunErr, ?_⟩
  intro c evs h
  rcases hd : connectViaAuthDirect env with ⟨r, evs1⟩
  cases r with
  | ok c1 =>
    simp only [Connect, hd, Option.some.injEq, Prod.mk.injEq,
      Except.ok.injEq] at h
    rw [← h.1]
    exact hdirectOk c1 evs1 hd
  | error e1 =>
    cases hs : cfg.ssh with
    | none => simp [Connect, hd, hs] at h
    | some u =>
      rcases ht : connectViaProxyTunnel cfg env with _ | ⟨r2, evs2⟩
      · simp [Connect, hd, hs, ht] at h
      · cases r2 with
        | ok c2 =>
          simp only [Connect, hd, hs, ht, Option.some.injEq, Prod.mk.injEq,
            Except.ok.injEq] at h
          rw [← h.1]
          exact htunOk c2 evs2 ht
        | error e2 => simp [Connect, hd, hs, ht] at h

/-- C5 witness: a direct client that fails its probe is closed in the
direct attempt's log, and the tunnel client `Connect` then returns has a
passing probe. -/
theorem connect_live_or_closed_witness :
    CEvent.closed 1 ∈ [CEvent.created 1, CEvent.closed 1] ∧
      witEnvPingFailThenTunnel.ping 2 = none := by
  have h := connect_live_or_closed witCfgProxy witEnvPingFailThenTunnel
  refine ⟨?_, ?_⟩
  · exact h.2.1 (.base "direct ping failed")
      [CEvent.created 1, CEvent.closed 1] 1 rfl (by decide)
  · exact h.2.2.2.2 2
      ([CEvent.created 1, CEvent.closed 1]
        ++ [CEvent.resolverCreated "proxy.example.com:3080", CEvent.created 2])
      rfl

/-- C6: with SSH credentials absent, a direct failure is returned alone —
only the wrapped direct error, with no tunnel-path event (in particular no
resolver creation) in the log. -/
theorem connect_no_ssh_direct_only (cfg : Config) (env : DialEnv)
    (e : AErr) (evs : List CEvent)
    (hssh : cfg.ssh = none)
    (h1 : connectViaAuthDirect env = (.error e, evs)) :
    Connect cfg env = some (.error (.wrapped directFailMsg e), evs) ∧
      ∀ a, CEvent.resolverCreated a ∉ evs := by
  constructor
  · simp only [Connect, h1, hssh]
  · intro a
    have hn := connectViaAuthDirect_no_resolver env a
    rw [h1] at hn
    exact hn

/-- C6 witness: without SSH credentials the concrete direct failure comes
back alone. -/
theorem connect_no_ssh_direct_only_witness :
    Connect witCfgNoSSH witEnvBothFail
      = some (.error (.wrapped directFailMsg (.base "connection refused")), []) := by
  exact (connect_no_ssh_direct_only witCfgNoSSH witEnvBothFail
    (.base "connection refused") [] rfl rfl).1

/-- C9: when the direct attempt succeeds (probe included), `Connect`
returns exactly that client with only its creation event — no resolver
creation and no other tunnel-path event occurs. -/
theorem connect_direct_success_frame (cfg : Config) (env : DialEnv)
    (c : Client) (h1 : env.newDirectClient = .ok c) (h2 : env.ping c = none) :
    Connect cfg env = some (.ok c, [CEvent.created c]) ∧
      ∀ a r evs, Connect cfg env = some (r, evs) →
        CEvent.resolverCreated a ∉ evs := by
  have hd : connectViaAuthDirect env = (.ok c, [CEvent.created c]) := by
    simp only [connectViaAuthDirect, h1, h2]
  have hc : Connect cfg env = some (.ok c, [CEvent.created c]) := by
    simp only [Connect, hd]
  refine ⟨hc, ?_⟩
  intro a r evs h
  rw [hc] at h
  simp only [Option.some.injEq, Prod.mk.injEq] at h
  rw [← h.2]
  simp

/-- C9 witness: a concrete successful direct dial returns the direct client
with only its creation event, even though the tunnel-path resolver would
fail if it were ever constructed. -/
theorem connect_direct_success_frame_witness :
    Connect witCfgProxy witEnvDirectOk = some (.ok 7, [CEvent.created 7]) := by
  exact (connect_direct_success_frame witCfgProxy witEnvDirectOk 7 rfl rfl).1

/-- C10: with an empty address list, SSH credentials present, and a failed
direct attempt, the tunnel fallback's indexing of `cfg.AuthServers[0]` is
out of bounds, so the total embedding of `Connect` yields no ordinary
result value at all. -/
theorem connect_empty_addrs_no_value (cfg : Config) (env : DialEnv)
    (e : AErr) (evs : List CEvent)
    (hempty : cfg.authServers = [])
    (hssh : cfg.ssh = some ())
    (h1 : connectViaAuthDirect env = (.error e, evs)) :
    Connect cfg env = none := by
  have ht : connectViaProxyTunnel cfg env = none := by
    simp [connectViaProxyTunnel, hempty]
  simp only [Connect, h1, hssh, ht]

/-- C10 witness: the concrete empty-address configuration reaches the
out-of-bounds index. -/
theorem connect_empty_addrs_no_value_witness :
    Connect witCfgEmpty witEnvBothFail = none := by
  exact connect_empty_addrs_no_value witCfgEmpty witEnvBothFail
    (.base "connection refused") [] rfl rfl rfl

/-! ## Claim about the effective certificate expiry -/

/-- C8: the effective disconnect expiry is the zero time when the adjusted
disconnect-expired-cert behaviour is disabled; otherwise it is the
previous-identity expiry when the identity is MFA-verified and that expiry
is set, and the certificate expiry otherwise — and the spec-modelled
function reproduces every row of `TestGetDisconnectExpiredCertFromIdentity`. -/
theorem getDisconnectExpiredCert_spec (adjust : Bool → Bool) (pref : Bool)
    (id : Identity) :
    (adjust pref = false →
        GetDisconnectExpiredCertFromIdentity adjust pref id = 0) ∧
      (adjust pref = true → id.previousIdentityExpires ≠ 0 →
        id.mfaVerified ≠ "" →
        GetDisconnectExpiredCertFromIdentity adjust pref id
          = id.previousIdentityExpires) ∧
      (adjust pref = true →
        (id.previousIdentityExpires = 0 ∨ id.mfaVerified = "") →
        GetDisconnectExpiredCertFromIdentity adjust pref id = id.expires) ∧
      (∀ row ∈ expiryTestRows, expiryRowPasses row = true) := by
  refine ⟨?_, ?_, ?_, by decide⟩
  · intro h
    simp [GetDisconnectExpiredCertFromIdentity, h]
  · intro h h1 h2
    simp [GetDisconnectExpiredCertFromIdentity, h, h1, h2]
  · intro h h1
    rcases h1 with h1 | h1 <;>
      simp [GetDisconnectExpiredCertFromIdentity, h, h1]

/-- C8 witness: the MFA-verified identity with a set previous expiry gets
that previous expiry under the test's pass-through checker. -/
theorem getDisconnectExpiredCert_spec_witness :
    GetDisconnectExpiredCertFromIdentity mockAdjustDisconnectExpiredCert true
      { expires := testNow, previousIdentityExpires := testInAnHour,
        mfaVerified := "1234" } = testInAnHour := by
  exact (getDisconnectExpiredCert_spec mockAdjustDisconnectExpiredCert true
    { expires := testNow, previousIdentityExpires := testInAnHour,
      mfaVerified := "1234" }).2.1 rfl (by decide) (by decide)

end Teleport
